import Mathlib

/-!
Verification of the geolocation reconciliation pipeline in `wikipedia.py`
(repository htmlfarmer/pulse).

The development shallow-embeds the relevant parts of the source:

* `RemoteLLMClient.__init__` / `RemoteLLMClient.ask` (lines 97-212): the
  resilient model client with retry, backoff, API-key provider failover and
  the SSE streaming fallback.  The remote server is modelled as a function
  from the index of the POST request to its outcome, plus one streaming
  outcome; a call to `ask` returns the produced string together with a
  trace (number of POSTs, number of streaming POSTs, the sleep durations).
* the place-string geocode tolerant-parser cascade (lines 682-757);
* the per-item reconciliation and feature emission logic (lines 761-830),
  including the stable-id computation `md5(title|place|idx)` for which a
  full MD5 implementation is provided.

Python floats are modelled as exact rationals extended with NaN and the
two infinities (`PyFloat`); machine rounding is irrelevant to every claim
checked here.  Python string primitives (`strip`, `startswith`, slicing,
`join`, the `in` operator) are modelled by structurally recursive
functions over the character list of a `String`, so that every definition
evaluates inside the kernel.
-/

/-! ## The remote model client (`RemoteLLMClient`, wikipedia.py lines 97-212) -/

/-- Outcome of one (non-streaming) `requests.post` to the `/ask` endpoint.
`success ctJson jsonOk responseField text` is a reply that passed
`raise_for_status`: `ctJson` tells whether the content-type contains
`application/json`; `jsonOk` whether `r.json()` parses (when it does not,
`requests` raises a `JSONDecodeError`, a `RequestException`);
`responseField` is the `response` field of the JSON body (`none` for a
missing or null field); `text` is the raw body text.  `httpErr` is a
`raise_for_status` failure with the optional status code, `reqErr` any
other `requests.RequestException`. -/
inductive PostOutcome where
  | success (ctJson : Bool) (jsonOk : Bool) (responseField : Option String) (text : String)
  | httpErr (status : Option Nat) (msg : String)
  | reqErr (msg : String)
deriving DecidableEq

/-- Outcome of the streaming POST (`?stream=1`): either the request or its
`raise_for_status` fails, or it yields the lines of the SSE body as
delivered by `iter_lines` (a `none` entry models a `None` line). -/
inductive StreamOutcome where
  | fail (msg : String)
  | ok (lines : List (Option String))
deriving DecidableEq

/-- The remote server as seen by one `ask` call: the outcome of the n-th
non-streaming POST (0-based, counting the provider=local retry POST as
well), and the outcome of the streaming POST if one is made. -/
structure ServerModel where
  post : Nat → PostOutcome
  stream : StreamOutcome

/-- Client configuration: `available` from the constructor health probe,
the provider chosen at init, `LLM_RETRY_COUNT` and `LLM_RETRY_BACKOFF`. -/
structure AskConfig where
  available : Bool
  provider : String
  retry_count : Nat
  backoff_base : ℚ
deriving DecidableEq

/-- Result of one `ask` call: the returned string plus the observable
trace (non-streaming POSTs issued, streaming POSTs issued, and the
`time.sleep` durations in order). -/
structure AskResult where
  value : String
  posts : Nat
  streams : Nat
  sleeps : List ℚ
deriving DecidableEq

/-- Does `needle` occur at the head of `hay`? -/
def chars_head_match : List Char → List Char → Bool
  | [], _ => true
  | _ :: _, [] => false
  | c :: cs, d :: ds => c = d && chars_head_match cs ds

/-- Python `str.isspace` for the ASCII whitespace characters recognised by
`str.strip` (space, tab, newline, carriage return, vertical tab, form
feed); the inputs in this development are ASCII. -/
def py_isspace (c : Char) : Bool :=
  c = ' ' || c = '\t' || c = '\n' || c = '\r' || c = '\x0b' || c = '\x0c'

/-- Python `str.strip()`: drop whitespace from both ends. -/
def py_strip (s : String) : String :=
  ⟨((s.data.dropWhile py_isspace).reverse.dropWhile py_isspace).reverse⟩

/-- Python `str.startswith`. -/
def str_starts (s p : String) : Bool :=
  chars_head_match p.data s.data

/-- Python slicing `s[n:]` (by characters; the sliced tags here are ASCII). -/
def str_drop (s : String) (n : Nat) : String :=
  ⟨s.data.drop n⟩

/-- Python `'\n'.join(parts)`. -/
def py_join (parts : List String) : String :=
  match parts with
  | [] => ""
  | p :: rest => rest.foldl (fun acc q => acc ++ "\n" ++ q) p

/-- Does `needle` occur anywhere in `hay`? -/
def chars_contains (hay needle : List Char) : Bool :=
  if chars_head_match needle hay then true
  else
    match hay with
    | [] => false
    | _ :: t => chars_contains t needle

/-- Substring test, modelling the Python `in` operator on strings. -/
def str_contains (hay needle : String) : Bool :=
  chars_contains hay.data needle.data

/-- The API-key-error sniff on the response text, wikipedia.py line 142:
`('403' in t and 'API key' in t) or 'Your API key' in t or 'leaked' in t`. -/
def api_key_error (resp_text : String) : Bool :=
  (str_contains resp_text "403" && str_contains resp_text "API key")
    || str_contains resp_text "Your API key" || str_contains resp_text "leaked"

/-- Response text extraction, lines 134-140: the JSON `response` field
(with `j.get('response','') or ''` collapsing a missing or null field to
the empty string) when the content-type is JSON, else `r.text or ''`;
stripped either way. -/
def resp_text_of (ctJson : Bool) (field : Option String) (text : String) : String :=
  py_strip (if ctJson then field.getD "" else text)

/-- The Python idiom `s or 'Unknown'` for strings (line 155 and friends). -/
def or_unknown (s : String) : String :=
  if s = "" then "Unknown" else s

/-- The `provider='local'` retry after an API-key error, lines 144-154.
`some v` means the inner `try` returned `v`; `none` means the inner POST
(or its JSON decode) failed, the exception was swallowed and control falls
through to line 155.  `j2.get('response','Unknown') or 'Unknown'` maps a
missing, null or empty field to `Unknown`. -/
def local_retry (server : ServerModel) (i : Nat) : Option String :=
  match server.post i with
  | .success ct2 json2Ok field2 text2 =>
    if ct2 then
      if json2Ok then
        some (match field2 with
          | none => "Unknown"
          | some s => or_unknown s)
      else none
    else
      some (or_unknown (py_strip text2))
  | .httpErr _ _ => none
  | .reqErr _ => none

/-- SSE frame consumption, lines 183-193: skip null and blank lines, keep
the stripped payload of each `data:` line, stop at a literal `[DONE]`
payload.  Lines not starting with `data:` (including `event:` lines) are
skipped, not terminators. -/
def sse_collect : List (Option String) → List String
  | [] => []
  | none :: rest => sse_collect rest
  | some raw :: rest =>
    let line := py_strip raw
    if line = "" then sse_collect rest
    else if str_starts line "data:" then
      let data := py_strip (str_drop line 5)
      if data = "[DONE]" then []
      else data :: sse_collect rest
    else sse_collect rest

/-- Lines 194-195: `final = '\n'.join(parts).strip(); return final or 'Unknown'`. -/
def sse_final (lines : List (Option String)) : String :=
  or_unknown (py_strip (py_join (sse_collect lines)))

/-- The final-failure message of line 212. -/
def ask_fail_msg (attempt : Nat) (last : String) : String :=
  "Error: Remote request failed after " ++ Nat.repr attempt ++ " attempts: " ++ last

/-- The `while attempt <= retry_count` loop of `ask`, lines 130-210.
`fuel` is the number of loop iterations still permitted
(`retry_count + 1 - attempt`, so `fuel = 0` is the loop condition turning
false); `posts` counts POSTs issued so far and doubles as the index of the
next server outcome; `sleeps` accumulates the backoff delays in order. -/
def ask_loop (cfg : AskConfig) (server : ServerModel) :
    Nat → Nat → Nat → List ℚ → String → AskResult
  | 0, attempt, posts, sleeps, last =>
    ⟨ask_fail_msg attempt last, posts, 0, sleeps⟩
  | fuel + 1, attempt, posts, sleeps, _ =>
    match server.post posts with
    | .success ctJson jsonOk field text =>
      if ctJson && !jsonOk then
        -- r.json() raised JSONDecodeError, caught as a RequestException (line 200)
        if attempt < cfg.retry_count then
          ask_loop cfg server fuel (attempt + 1) (posts + 1)
            (sleeps ++ [cfg.backoff_base * 2 ^ attempt]) "JSONDecodeError"
        else
          ⟨ask_fail_msg attempt "JSONDecodeError", posts + 1, 0, sleeps⟩
      else
        let resp_text := resp_text_of ctJson field text
        if api_key_error resp_text && !(cfg.provider = "local") then
          match local_retry server (posts + 1) with
          | some v => ⟨v, posts + 2, 0, sleeps⟩
          | none => ⟨or_unknown resp_text, posts + 2, 0, sleeps⟩
        else
          ⟨or_unknown resp_text, posts + 1, 0, sleeps⟩
    | .httpErr status msg =>
      if attempt < cfg.retry_count then
        ask_loop cfg server fuel (attempt + 1) (posts + 1)
          (sleeps ++ [cfg.backoff_base * 2 ^ attempt]) msg
      else
        -- line 170: stream when the status is unknown or a 5xx
        if (match status with
            | none => true
            | some s => 500 ≤ s && s < 600) then
          match server.stream with
          | .ok lines => ⟨sse_final lines, posts + 1, 1, sleeps⟩
          | .fail smsg => ⟨ask_fail_msg attempt smsg, posts + 1, 1, sleeps⟩
        else
          ⟨ask_fail_msg attempt msg, posts + 1, 0, sleeps⟩
    | .reqErr msg =>
      if attempt < cfg.retry_count then
        ask_loop cfg server fuel (attempt + 1) (posts + 1)
          (sleeps ++ [cfg.backoff_base * 2 ^ attempt]) msg
      else
        ⟨ask_fail_msg attempt msg, posts + 1, 0, sleeps⟩

/-- `RemoteLLMClient.ask`, lines 115-212.  The guard of lines 116-118
returns immediately, with no network traffic, when the health probe left
the client unavailable. -/
def ask (cfg : AskConfig) (server : ServerModel) : AskResult :=
  if cfg.available then
    ask_loop cfg server (cfg.retry_count + 1) 0 0 [] "None"
  else
    ⟨"Error: Remote server not available.", 0, 0, []⟩

/-- `RemoteLLMClient.__init__`, lines 107-113: the health probe result is
`none` when `requests.get` raised, otherwise the final status code;
`self.available = r.ok`, and `Response.ok` is `status_code < 400`. -/
def client_available (probe : Option Nat) : Bool :=
  match probe with
  | some status => status < 400
  | none => false

/-- A POST outcome that is not an HTTP success. -/
def post_failed : PostOutcome → Bool
  | .success _ _ _ _ => false
  | .httpErr _ _ => true
  | .reqErr _ => true

/-- A streaming POST outcome that raised. -/
def stream_failed : StreamOutcome → Bool
  | .fail _ => true
  | .ok _ => false

/-- A POST outcome that sends `ask` through its retry-with-backoff path:
an HTTP error, a request exception, or a reply whose JSON body fails to
decode (a `RequestException` in `requests`). -/
def retriable_failure : PostOutcome → Bool
  | .httpErr _ _ => true
  | .reqErr _ => true
  | .success ct jsonOk _ _ => ct && !jsonOk

/-- The SSE reconstruction stated the way the (amended) specification
words it: take every delivered line, strip it, keep the `data:` lines,
strip the payload after the `data:` tag, and keep the payloads in arrival
order up to the first literal `[DONE]`; every other frame, `event:` lines
included, is ignored. -/
def sse_payloads_from_spec (lines : List (Option String)) : List String :=
  ((((lines.filterMap id).map py_strip).filter
      (fun l => str_starts l "data:")).map
      (fun l => py_strip (str_drop l 5))).takeWhile (fun d => d ≠ "[DONE]")

/-! ### Concrete client/server instances used by witnesses and counterexamples -/

/-- Client with the default retry count 2 and backoff base 0.1, available. -/
def cfg_retry2 : AskConfig := ⟨true, "gemini-2.5-flash-lite", 2, 1/10⟩

/-- Client with retry count 0, available. -/
def cfg_retry0 : AskConfig := ⟨true, "gemini-2.5-flash-lite", 0, 1/2⟩

/-- Client whose constructor health probe failed. -/
def cfg_unavailable : AskConfig := ⟨false, "gemini-2.5-flash-lite", 2, 1/2⟩

/-- A server that 500s on the first POST and then answers plainly. -/
def srv_fail_once : ServerModel :=
  ⟨fun k => if k = 0 then .httpErr (some 500) "boom" else .success false true none "ok",
   .fail "no stream"⟩

/-- A server whose every POST and whose streaming POST all fail. -/
def srv_all_down : ServerModel :=
  ⟨fun _ => .reqErr "connection refused", .fail "stream refused"⟩

/-- A server that replies 200 with JSON whose `response` field is empty. -/
def srv_empty_reply : ServerModel :=
  ⟨fun _ => .success true true (some "") "", .fail "no stream"⟩

/-- A server that 503s every POST and whose stream carries no payload. -/
def srv_stream_empty : ServerModel :=
  ⟨fun _ => .httpErr (some 503) "unavailable", .ok [some "data: [DONE]"]⟩

/-! ## Python floats

A Python float is modelled as an exact rational or one of the special
values `nan`, `inf`, `-inf`; machine rounding is irrelevant to the claims
checked here.  `nan` propagates through arithmetic and makes every
comparison false, as in IEEE 754 / Python. -/

inductive PyFloat where
  | fin (q : ℚ)
  | nan
  | inf
  | ninf
deriving DecidableEq

/-- Python float subtraction. -/
def pyf_sub : PyFloat → PyFloat → PyFloat
  | .fin a, .fin b => .fin (a - b)
  | .nan, _ => .nan
  | _, .nan => .nan
  | .inf, .inf => .nan
  | .inf, _ => .inf
  | .ninf, .ninf => .nan
  | .ninf, _ => .ninf
  | .fin _, .inf => .ninf
  | .fin _, .ninf => .inf

/-- Python `abs` on floats. -/
def pyf_abs : PyFloat → PyFloat
  | .fin a => .fin |a|
  | .nan => .nan
  | .inf => .inf
  | .ninf => .inf

/-- Python `<=` on floats; any comparison involving NaN is false. -/
def pyf_le : PyFloat → PyFloat → Bool
  | .nan, _ => false
  | _, .nan => false
  | .ninf, _ => true
  | _, .inf => true
  | .inf, _ => false
  | .fin a, .fin b => a ≤ b
  | .fin _, .ninf => false

/-- `math.isfinite`: true exactly on non-NaN, non-infinite values.  (The
source never checks this; the definition exists to state claim C4.) -/
def pyf_finite : PyFloat → Bool
  | .fin _ => true
  | _ => false

/-- `is_close(a, b, tol)` of wikipedia.py lines 761-765:
`abs(float(a) - float(b)) <= tol`, with `False` on any exception.  The
callers pass floats, so the `float()` conversions cannot raise; a NaN
argument propagates and yields `False`. -/
def is_close (a b : PyFloat) (tol : ℚ) : Bool :=
  pyf_le (pyf_abs (pyf_sub a b)) (.fin tol)

/-- Python truthiness of an optional string (`if llm_raw:`): `None` and
the empty string are falsy. -/
def py_truthy_str (o : Option String) : Bool :=
  match o with
  | none => false
  | some s => !(s = "")

/-- Python slicing `s[:n]` by characters. -/
def str_take (s : String) (n : Nat) : String :=
  ⟨s.data.take n⟩

/-! ## MD5 (`hashlib.md5(...).hexdigest()`), used for the feature id -/

/-- UTF-8 encoding of one character (Python `str.encode('utf-8')`). -/
def utf8_char_bytes (c : Char) : List Nat :=
  let n := c.toNat
  if n < 128 then [n]
  else if n < 2048 then [192 + n / 64, 128 + n % 64]
  else if n < 65536 then [224 + n / 4096, 128 + (n / 64) % 64, 128 + n % 64]
  else [240 + n / 262144, 128 + (n / 4096) % 64, 128 + (n / 64) % 64, 128 + n % 64]

/-- UTF-8 encoding of a string as a byte list. -/
def utf8_bytes (s : String) : List Nat :=
  (s.data.map utf8_char_bytes).flatten

/-- The 64 MD5 round constants `floor(abs(sin(i+1)) * 2^32)`. -/
def md5_k : List Nat := [
  3614090360, 3905402710, 606105819, 3250441966,
  4118548399, 1200080426, 2821735955, 4249261313,
  1770035416, 2336552879, 4294925233, 2304563134,
  1804603682, 4254626195, 2792965006, 1236535329,
  4129170786, 3225465664, 643717713, 3921069994,
  3593408605, 38016083, 3634488961, 3889429448,
  568446438, 3275163606, 4107603335, 1163531501,
  2850285829, 4243563512, 1735328473, 2368359562,
  4294588738, 2272392833, 1839030562, 4259657740,
  2763975236, 1272893353, 4139469664, 3200236656,
  681279174, 3936430074, 3572445317, 76029189,
  3654602809, 3873151461, 530742520, 3299628645,
  4096336452, 1126891415, 2878612391, 4237533241,
  1700485571, 2399980690, 4293915773, 2240044497,
  1873313359, 4264355552, 2734768916, 1309151649,
  4149444226, 3174756917, 718787259, 3951481745]

/-- The MD5 per-round left-rotation amounts. -/
def md5_s : List Nat := [
  7, 12, 17, 22, 7, 12, 17, 22, 7, 12, 17, 22, 7, 12, 17, 22,
  5, 9, 14, 20, 5, 9, 14, 20, 5, 9, 14, 20, 5, 9, 14, 20,
  4, 11, 16, 23, 4, 11, 16, 23, 4, 11, 16, 23, 4, 11, 16, 23,
  6, 10, 15, 21, 6, 10, 15, 21, 6, 10, 15, 21, 6, 10, 15, 21]

/-- 32-bit left rotation. -/
def rotl32 (x n : Nat) : Nat :=
  ((x <<< n) % 4294967296) ||| (x >>> (32 - n))

/-- Little-endian 32-bit word `g` of a 64-byte chunk. -/
def le_word (bytes : List Nat) (g : Nat) : Nat :=
  bytes.getD (4 * g) 0 + 256 * bytes.getD (4 * g + 1) 0 +
    65536 * bytes.getD (4 * g + 2) 0 + 16777216 * bytes.getD (4 * g + 3) 0

/-- The MD5 round function and message-word schedule for round `i`. -/
def md5_fg (i b c d : Nat) : Nat × Nat :=
  if i < 16 then ((b &&& c) ||| ((b ^^^ 4294967295) &&& d), i)
  else if i < 32 then ((d &&& b) ||| ((d ^^^ 4294967295) &&& c), (5 * i + 1) % 16)
  else if i < 48 then (b ^^^ c ^^^ d, (3 * i + 5) % 16)
  else (c ^^^ (b ||| (d ^^^ 4294967295)), (7 * i) % 16)

/-- One MD5 round on the state `(a, b, c, d)`. -/
def md5_step (chunk : List Nat) (st : Nat × Nat × Nat × Nat) (i : Nat) : Nat × Nat × Nat × Nat :=
  let (a, b, c, d) := st
  let (f, g) := md5_fg i b c d
  let f2 := (f + a + md5_k.getD i 0 + le_word chunk g) % 4294967296
  (d, (b + rotl32 f2 (md5_s.getD i 0)) % 4294967296, b, c)

/-- The 64 rounds of one chunk, added back into the running state. -/
def md5_chunk (chunk : List Nat) (st : Nat × Nat × Nat × Nat) : Nat × Nat × Nat × Nat :=
  let (a0, b0, c0, d0) := st
  let (a, b, c, d) := (List.range 64).foldl (md5_step chunk) st
  ((a0 + a) % 4294967296, (b0 + b) % 4294967296, (c0 + c) % 4294967296, (d0 + d) % 4294967296)

/-- Process a padded message 64 bytes at a time (`fuel` bounds the number
of chunks; callers pass the byte length). -/
def md5_chunks (fuel : Nat) (bytes : List Nat) (st : Nat × Nat × Nat × Nat) :
    Nat × Nat × Nat × Nat :=
  match fuel with
  | 0 => st
  | fuel + 1 =>
    match bytes with
    | [] => st
    | _ => md5_chunks fuel (bytes.drop 64) (md5_chunk (bytes.take 64) st)

/-- `count` little-endian bytes of `v`. -/
def le_bytes (count v : Nat) : List Nat :=
  (List.range count).map (fun i => (v >>> (8 * i)) % 256)

/-- MD5 padding: a `0x80` byte, zeros to 56 mod 64, then the bit length
as a little-endian 64-bit quantity. -/
def md5_pad (msg : List Nat) : List Nat :=
  msg ++ [128] ++ List.replicate ((120 - (msg.length + 1) % 64) % 64) 0 ++
    le_bytes 8 ((8 * msg.length) % 18446744073709551616)

/-- Lowercase hexadecimal digit. -/
def hex_digit (n : Nat) : Char :=
  if n < 10 then Char.ofNat (48 + n) else Char.ofNat (87 + n)

/-- Two lowercase hex digits of a byte. -/
def byte_hex (b : Nat) : List Char :=
  [hex_digit (b / 16), hex_digit (b % 16)]

/-- The eight hex digits of a 32-bit word, little-endian byte order. -/
def word_hex_le (w : Nat) : List Char :=
  byte_hex (w % 256) ++ byte_hex ((w >>> 8) % 256) ++
    byte_hex ((w >>> 16) % 256) ++ byte_hex ((w >>> 24) % 256)

/-- `hashlib.md5(msg).hexdigest()` (verified against the reference
digests for the empty message and for `abc`). -/
def md5_hexdigest (msg : List Nat) : String :=
  let padded := md5_pad msg
  let (a, b, c, d) :=
    md5_chunks padded.length padded (1732584193, 4023233417, 2562383102, 271733878)
  ⟨word_hex_le a ++ word_hex_le b ++ word_hex_le c ++ word_hex_le d⟩

/-- The feature id of wikipedia.py lines 790-791:
`md5(((title or '') + '|' + (place_str or '') + '|' + str(idx)).encode('utf-8')).hexdigest()`. -/
def feature_id (title place_str : String) (idx : Nat) : String :=
  md5_hexdigest (utf8_bytes (title ++ "|" ++ place_str ++ "|" ++ Nat.repr idx))

/-! ## Per-item reconciliation and feature emission (lines 761-830) -/

/-- The inputs of the reconciliation-and-emission tail of the per-item
loop, as they stand at line 761: the story-extraction estimate `lat`/`lng`
(already passed through the `float()` conversion of lines 615-619, hence
possibly NaN — `json.loads` accepts `NaN`/`Infinity` literals), the
knowledge-base or place-string estimate `lat_wiki`/`lng_wiki`, the parsed
independent event-text estimate `llm_only_geocode_parsed`, and the raw
story reply `llm_raw` (None when no model ran). -/
structure ItemState where
  news_item_text : String
  title : String
  place_str : String
  idx : Nat
  lat : Option PyFloat
  lng : Option PyFloat
  lat_wiki : Option PyFloat
  lng_wiki : Option PyFloat
  llm_only_geocode_parsed : Option (PyFloat × PyFloat)
  llm_raw : Option String
deriving DecidableEq

/-- The claim-relevant fields of one emitted GeoJSON feature: the stable
id, the displayed title, the place string, the final `lat`/`lng`
properties, the `decision` tag, and the geometry coordinate pair, which
the source writes `[lng, lat]` (longitude first). -/
structure GeoFeature where
  id : String
  title : String
  place : String
  lat : PyFloat
  lng : PyFloat
  decision : String
  geometry : PyFloat × PyFloat
deriving DecidableEq

/-- Lines 767-778: reconcile the story estimate with the knowledge-base
coordinate.  Returns the working `(lat, lng)` and the `use_llm` flag.
When both pairs exist, `use_llm` is set by the two `is_close(…, tol=2.0)`
tests and the working coordinates remain the story estimate in *both*
branches; when only the knowledge-base pair exists it becomes the working
coordinates with `use_llm = False`. -/
def reconcile_coords (st : ItemState) : Option PyFloat × Option PyFloat × Bool :=
  match st.lat, st.lng with
  | some a, some b =>
    (match st.lat_wiki, st.lng_wiki with
     | some c, some d =>
       if is_close a c 2 && is_close b d 2 then (some a, some b, true)
       else (some a, some b, false)
     | _, _ => (some a, some b, true))
  | _, _ =>
    match st.lat_wiki, st.lng_wiki with
    | some c, some d => (some c, some d, false)
    | _, _ => (st.lat, st.lng, false)

/-- Lines 780-830: emit a feature when the working `lat`/`lng` are both
present.  The independent event-text estimate, when parsed, overwrites the
final coordinates (lines 781-788, its values are floats so the `float()`
calls cannot raise); the id is the stable hash of lines 790-791; the
`decision` of lines 792-798 is `llm` when `use_llm`, else `wikidata` (the
source literal the specification names `knowledge_base`) when the
knowledge-base pair exists, else `llm`/`fallback` by truthiness of the raw
story reply. -/
def emit_feature (st : ItemState) : Option GeoFeature :=
  match reconcile_coords st with
  | (some la, some lb, use_llm) =>
    let (laf, lbf) :=
      match st.llm_only_geocode_parsed with
      | some (p, q) => (p, q)
      | none => (la, lb)
    let fid := feature_id st.title st.place_str st.idx
    let decision :=
      if use_llm then "llm"
      else if st.lat_wiki.isSome && st.lng_wiki.isSome then "wikidata"
      else if py_truthy_str st.llm_raw then "llm"
      else "fallback"
    some ⟨fid,
      (if st.title = "" then str_take st.news_item_text 100 ++ "..." else st.title),
      st.place_str, laf, lbf, decision, (lbf, laf)⟩
  | _ => none

/-! ### Concrete item states used by witnesses and counterexamples -/

/-- Story estimate `(10, 20)` against knowledge-base `(50, 90)`: outside
the 2.0-degree tolerance, no independent event-text estimate. -/
def st_far : ItemState :=
  ⟨"news text", "T", "P", 0, some (.fin 10), some (.fin 20),
    some (.fin 50), some (.fin 90), none, some "raw"⟩

/-- Story estimate `(10, 20)` against knowledge-base `(10.5, 20.5)`:
inside the 2.0-degree tolerance. -/
def st_close : ItemState :=
  ⟨"news text", "T", "P", 0, some (.fin 10), some (.fin 20),
    some (.fin (21/2)), some (.fin (41/2)), none, some "raw"⟩

/-- As `st_far` but with an independent event-text estimate `(0, 0)`. -/
def st_step2 : ItemState :=
  ⟨"news text", "T", "P", 0, some (.fin 10), some (.fin 20),
    some (.fin 50), some (.fin 90), some (.fin 0, .fin 0), some "raw"⟩

/-- As `st_step2` with the independent estimate removed. -/
def st_step2_none : ItemState :=
  ⟨"news text", "T", "P", 0, some (.fin 10), some (.fin 20),
    some (.fin 50), some (.fin 90), none, some "raw"⟩

/-- A story whose extracted coordinates are NaN (reachable: `json.loads`
accepts the literal `NaN`, and lines 615-619 pass it through `float()`),
with no knowledge-base hit. -/
def st_nan : ItemState :=
  ⟨"news text", "T", "P", 0, some .nan, some .nan, none, none, none, some "raw"⟩

/-- First of two runs of the same `(title, place, index)` triple. -/
def st_run1 : ItemState :=
  ⟨"first run text", "T", "P, Q", 3, some (.fin 1), some (.fin 2),
    none, none, none, some "reply one"⟩

/-- Second run: same triple, different coordinates and diagnostics. -/
def st_run2 : ItemState :=
  ⟨"second run text", "T", "P, Q", 3, some (.fin 5), some (.fin 6),
    none, none, some (.fin 7, .fin 8), none⟩

/-! ## The place-string geocode tolerant-parser cascade (lines 682-757)

The four parsers are applied to `cleaned_geo` after its JSON parse
failed.  Each regular expression of the source is implemented as a
character-level matcher with the leftmost-then-greedy semantics of
Python `re` (backtracking is carried out explicitly at the points where
the patterns need it; elsewhere the greedy choice is forced, as the
following character classes are disjoint).  Numeric captures are kept as
raw `(sign, integer digits, fraction digits)` triples and converted to
exact rationals by `py_float_raw` where the source calls `float`. -/

/-- ASCII digit test (`[0-9]`). -/
def is_digit (c : Char) : Bool :=
  48 ≤ c.toNat && c.toNat ≤ 57

/-- First alternative on which the continuation succeeds (explicit
backtracking over a candidate list, in the engine's preference order). -/
def first_hit {α β : Type} : List α → (α → Option β) → Option β
  | [], _ => none
  | x :: rest, f =>
    match f x with
    | some b => some b
    | none => first_hit rest f

/-- Candidates for a greedy bounded digit run `[0-9]{1,maxn}`: the
possible `(digits, rest)` splits, longest first. -/
def digit_takes (maxn : Nat) (l : List Char) : List (List Char × List Char) :=
  let ds := (l.takeWhile is_digit).take maxn
  (List.range ds.length).map (fun k => (ds.take (ds.length - k), l.drop (ds.length - k)))

/-- Value of a digit run. -/
def digits_to_nat (ds : List Char) : Nat :=
  ds.foldl (fun acc c => 10 * acc + (c.toNat - 48)) 0

/-- `float()` of a captured numeral `(sign, integer digits, fraction
digits)`, as an exact rational. -/
def py_float_raw (g : Bool × List Char × List Char) : ℚ :=
  let v : ℚ := digits_to_nat g.2.1 + (digits_to_nat g.2.2 : ℚ) / 10 ^ g.2.2.length
  if g.1 then -v else v

/-- The numeral pattern `[-+]?[0-9]{1,3}\.?[0-9]*` of parsers (b) and (c),
matched greedily at the head of `l`; returns the raw capture and the rest.
A sign is consumed when present (a sign not followed by a digit fails: the
optional sign cannot be skipped, since a digit is then required at the
sign character).  When more than 3 integer digits are present the
unbounded `[0-9]*` tail still captures them all, but a following dot is
then not consumed. -/
def num_lex (l : List Char) : Option ((Bool × List Char × List Char) × List Char) :=
  let sl : Bool × List Char :=
    match l with
    | c :: rest => if c = '-' then (true, rest) else if c = '+' then (false, rest) else (false, l)
    | [] => (false, l)
  let ds := sl.2.takeWhile is_digit
  if ds.isEmpty then none
  else
    let r1 := sl.2.drop ds.length
    if ds.length ≤ 3 then
      match r1 with
      | '.' :: r2 =>
        let fs := r2.takeWhile is_digit
        some ((sl.1, ds, fs), r2.drop fs.length)
      | _ => some ((sl.1, ds, []), r1)
    else some ((sl.1, ds, []), r1)

/-- Alternatives for the optional seconds fraction `(?:\.[0-9]+)?`,
greedy: with the fraction first, then without. -/
def frac_alts (l : List Char) : List (List Char × List Char) :=
  match l with
  | '.' :: r =>
    let fs := r.takeWhile is_digit
    if fs.isEmpty then [([], l)] else [(fs, r.drop fs.length), ([], l)]
  | _ => [([], l)]

/-- One DMS coordinate
`([0-9]{1,3})°\s*([0-9]{1,2})['′]\s*([0-9]{1,2}(?:\.[0-9]+)?)\"?\s*([NnSsEeWw])`
matched at the head of `l`; the groups are degree digits, minute digits,
seconds (integer and fraction digits) and the hemisphere letter. -/
def dms_match_at (l : List Char) :
    Option ((List Char × List Char × (List Char × List Char) × Char) × List Char) :=
  first_hit (digit_takes 3 l) (fun p =>
    (match p.2 with
     | '°' :: r2 =>
       let r3 := r2.dropWhile py_isspace
       first_hit (digit_takes 2 r3) (fun p2 =>
         (match p2.2 with
          | c :: r5 =>
            if c = '\x27' || c = '′' then
              let r6 := r5.dropWhile py_isspace
              first_hit (digit_takes 2 r6) (fun p3 =>
                first_hit (frac_alts p3.2) (fun p4 =>
                  let r10 :=
                    (match p4.2 with
                     | '\x22' :: rr => rr
                     | rr => rr)
                  let r11 := r10.dropWhile py_isspace
                  (match r11 with
                   | h :: r12 =>
                     if h = 'N' || h = 'n' || h = 'S' || h = 's' || h = 'E' || h = 'e' ||
                         h = 'W' || h = 'w' then
                       some ((p.1, p2.1, (p3.1, p4.1), h), r12)
                     else none
                   | [] => none)))
            else none
          | [] => none))
     | _ => none))

/-- `re.findall` for the DMS pattern: leftmost, non-overlapping. -/
def dms_findall : Nat → List Char →
    List (List Char × List Char × (List Char × List Char) × Char)
  | 0, _ => []
  | _ + 1, [] => []
  | fuel + 1, c :: rest =>
    match dms_match_at (c :: rest) with
    | some (g, r) => g :: dms_findall fuel r
    | none => dms_findall fuel rest

/-- All DMS matches in a string. -/
def dms_findall_str (s : String) :
    List (List Char × List Char × (List Char × List Char) × Char) :=
  dms_findall s.data.length s.data

/-- `_dms_to_decimal` (lines 655-662): `deg + min/60 + sec/3600`, negated
(through `-abs`) for a southern or western hemisphere letter. -/
def dms_to_decimal (g : List Char × List Char × (List Char × List Char) × Char) : ℚ :=
  let d : ℚ := digits_to_nat g.1
  let m : ℚ := digits_to_nat g.2.1
  let sv : ℚ := digits_to_nat g.2.2.1.1 + (digits_to_nat g.2.2.1.2 : ℚ) / 10 ^ g.2.2.1.2.length
  let val := d + m / 60 + sv / 3600
  if g.2.2.2 = 'S' || g.2.2.2 = 's' || g.2.2.2 = 'W' || g.2.2.2 = 'w' then -|val| else val

/-- `re.search` for the generic two-float pattern
`([-+]?[0-9]{1,3}\.?[0-9]*)\D+([-+]?[0-9]{1,3}\.?[0-9]*)` (line 707):
scan positions left to right; at each, a first numeral, then at least one
non-digit (the maximal run is the only viable split: a shorter one would
put the second numeral, after its optional sign, at a non-digit), then a
second numeral. -/
def two_float_search : Nat → List Char →
    Option ((Bool × List Char × List Char) × (Bool × List Char × List Char))
  | 0, _ => none
  | _ + 1, [] => none
  | fuel + 1, l =>
    match
      (match num_lex l with
       | some (g1, r1) =>
         let nd := r1.takeWhile (fun c => !is_digit c)
         if nd.isEmpty then none
         else
           match num_lex (r1.drop nd.length) with
           | some (g2, _) => some (g1, g2)
           | none => none
       | none => none) with
    | some p => some p
    | none => two_float_search fuel l.tail

/-- Two-float search over a string. -/
def two_float_search_str (s : String) :
    Option ((Bool × List Char × List Char) × (Bool × List Char × List Char)) :=
  two_float_search s.data.length s.data

/-- ASCII case-insensitive character comparison (`re.I`). -/
def ci_eq (c d : Char) : Bool :=
  (if 65 ≤ c.toNat && c.toNat ≤ 90 then c.toNat + 32 else c.toNat) =
    (if 65 ≤ d.toNat && d.toNat ≤ 90 then d.toNat + 32 else d.toNat)

/-- Case-insensitive head match. -/
def ci_head : List Char → List Char → Bool
  | [], _ => true
  | _ :: _, [] => false
  | c :: cs, d :: ds => ci_eq c d && ci_head cs ds

/-- The character class `[^0-9-]`. -/
def not_digit_dash (c : Char) : Bool :=
  !is_digit c && !(c = '-')

/-- `[^0-9-]*` followed by a numeral: skip the maximal gap (the class
excludes digits and `-`, so the numeral, with its optional `-` sign,
starts exactly where the gap ends). -/
def gap_num (l : List Char) : Option ((Bool × List Char × List Char) × List Char) :=
  let gap := l.takeWhile not_digit_dash
  num_lex (l.drop gap.length)

/-- The `[^0-9-]+lng[^0-9-]*(num)` half of pattern (c): the greedy
`[^0-9-]+` backtracks to the rightmost `lng` (case-insensitive) preceded
by at least one gap character, then a gap and the second numeral. -/
def lng_part (l : List Char) : Option (Bool × List Char × List Char) :=
  let run := l.takeWhile not_digit_dash
  first_hit ((List.range run.length).map (fun j => run.length - j)) (fun i =>
    let after := l.drop i
    if ci_head "lng".data after then
      match gap_num (after.drop 3) with
      | some (g2, _) => some g2
      | none => none
    else none)

/-- Pattern (c)
`lat[^0-9-]*([-+]?[0-9]{1,3}\.?[0-9]*)[^0-9-]+lng[^0-9-]*([-+]?[0-9]{1,3}\.?[0-9]*)`
(case-insensitive, line 724) matched at the head of `l`. -/
def latlng_match_at (l : List Char) :
    Option ((Bool × List Char × List Char) × (Bool × List Char × List Char)) :=
  if ci_head "lat".data l then
    match gap_num (l.drop 3) with
    | some (g1, r1) =>
      match lng_part r1 with
      | some g2 => some (g1, g2)
      | none => none
    | none => none
  else none

/-- `re.search` for pattern (c). -/
def latlng_search : Nat → List Char →
    Option ((Bool × List Char × List Char) × (Bool × List Char × List Char))
  | 0, _ => none
  | _ + 1, [] => none
  | fuel + 1, l =>
    match latlng_match_at l with
    | some p => some p
    | none => latlng_search fuel l.tail

/-- Pattern (c) search over a string. -/
def latlng_search_str (s : String) :
    Option ((Bool × List Char × List Char) × (Bool × List Char × List Char)) :=
  latlng_search s.data.length s.data

/-- ASCII letter or digit (the `\w` class, ASCII range; underscore is
listed separately in `place_class`). -/
def is_alnum (c : Char) : Bool :=
  is_digit c || (65 ≤ c.toNat && c.toNat ≤ 90) || (97 ≤ c.toNat && c.toNat ≤ 122)

/-- The class `[\w\-\.\'\s]` of pattern (d). -/
def place_class (c : Char) : Bool :=
  is_alnum c || c = '_' || c = '-' || c = '.' || c = '\x27' || py_isspace c

/-- Pattern (d) `^\s*([\w\-\.\'\s]{2,}),\s*([\w\-\.\'\s]{2,})\s*$`
(`re.match`, line 741): on success the source builds
`f"{group1.strip()}, {group2.strip()}"` as the place to re-look up.  The
greedy `\s*` prefixes backtrack (shrinking the whitespace skip grows the
following group, whose class includes whitespace); each group is the
maximal class run from its start, as the class excludes the following
delimiter. -/
def city_country_match (s : String) : Option String :=
  let l := s.data
  let ws := l.takeWhile py_isspace
  first_hit ((List.range (ws.length + 1)).map (fun j => ws.length - j)) (fun k =>
    let l1 := l.drop k
    let g1 := l1.takeWhile place_class
    if g1.length < 2 then none
    else
      match l1.drop g1.length with
      | ',' :: r2 =>
        let ws2 := r2.takeWhile py_isspace
        first_hit ((List.range (ws2.length + 1)).map (fun j => ws2.length - j)) (fun k2 =>
          let r3 := r2.drop k2
          let g2 := r3.takeWhile place_class
          if g2.length < 2 then none
          else if (r3.drop g2.length).isEmpty then
            some (py_strip ⟨g1⟩ ++ ", " ++ py_strip ⟨g2⟩)
          else none)
      | _ => none)

/-- Parser (a), lines 689-705: only when the reply contains a degree,
prime or double-quote character, collect the DMS matches and, when at
least two are found, convert the first two into `(lat, lng)`. -/
def dms_parse_step (cleaned_geo : String) : Option (ℚ × ℚ) × Bool :=
  if str_contains cleaned_geo "°" || str_contains cleaned_geo "′" ||
      str_contains cleaned_geo "\x22" then
    match dms_findall_str cleaned_geo with
    | g1 :: g2 :: _ => (some (dms_to_decimal g1, dms_to_decimal g2), true)
    | _ => (none, false)
  else (none, false)

/-- The tolerant-parser cascade of lines 682-757, entered when the JSON
parse of the geocode reply failed; returns the final
`(lat_wiki, lng_wiki)`.  Parser (b) is *not* guarded by `parsed_ok` in
the source (unlike (c) and (d)), so it runs — and overwrites — even when
the DMS parser (a) already succeeded.  The City-Country re-lookup of
parser (d) is abstracted by the `wikidata` function. -/
def geo_cascade (cleaned_geo : String) (wikidata : String → Option (ℚ × ℚ)) :
    Option (ℚ × ℚ) :=
  let s1 := dms_parse_step cleaned_geo
  let s2 : Option (ℚ × ℚ) × Bool :=
    match two_float_search_str cleaned_geo with
    | some (g1, g2) => (some (py_float_raw g1, py_float_raw g2), true)
    | none => s1
  let s3 : Option (ℚ × ℚ) × Bool :=
    if s2.2 then s2
    else
      match latlng_search_str cleaned_geo with
      | some (g1, g2) => (some (py_float_raw g1, py_float_raw g2), true)
      | none => s2
  let s4 : Option (ℚ × ℚ) × Bool :=
    if s3.2 then s3
    else
      match city_country_match cleaned_geo with
      | some place_guess =>
        (match wikidata place_guess with
         | some c => (some c, true)
         | none => s3)
      | none => s3
  s4.1

/-- The DMS geocode reply used by the specification's own test property
(`40°26'46"N 79°58'56"W`, ASCII quote characters), on which the JSON
parse fails and parser (a) succeeds. -/
def dms_reply : String := "40°26\x2746\x22N 79°58\x2756\x22W"

/-! ## Helper lemmas -/

lemma ask_fail_msg_ne_empty (a : Nat) (l : String) : ask_fail_msg a l ≠ "" := by
  intro he
  have h2 := congrArg String.length he
  simp only [ask_fail_msg, String.length_append] at h2
  have h3 : ("" : String).length = 0 := rfl
  have h4 : ("Error: Remote request failed after " : String).length = 35 := rfl
  omega

lemma or_unknown_ne_empty (s : String) : or_unknown s ≠ "" := by
  unfold or_unknown
  split
  · decide
  · next h => exact h

lemma sse_final_ne_empty (lines : List (Option String)) : sse_final lines ≠ "" :=
  or_unknown_ne_empty _

lemma local_retry_ne_empty (server : ServerModel) (i : Nat) (v : String)
    (h : local_retry server i = some v) : v ≠ "" := by
  unfold local_retry at h
  cases hp : server.post i <;> rw [hp] at h
  case success ct jsonOk field text =>
    by_cases hc : ct = true
    · by_cases hj : jsonOk = true
      · simp [hc, hj] at h
        cases field with
        | none => simp at h; subst h; decide
        | some s => simp at h; subst h; exact or_unknown_ne_empty s
      · simp [hc, hj] at h
    · simp [hc] at h
      subst h
      exact or_unknown_ne_empty _
  case httpErr => exact Option.noConfusion h
  case reqErr => exact Option.noConfusion h

lemma ask_loop_value_ne_empty (cfg : AskConfig) (server : ServerModel) :
    ∀ fuel attempt posts sleeps last,
      (ask_loop cfg server fuel attempt posts sleeps last).value ≠ "" := by
  intro fuel
  induction fuel with
  | zero => intro attempt posts sleeps last; exact ask_fail_msg_ne_empty _ _
  | succ n ih =>
    intro attempt posts sleeps last
    simp only [ask_loop]
    cases hp : server.post posts with
    | success ct jsonOk field text =>
      dsimp only
      split
      · split
        · exact ih _ _ _ _
        · exact ask_fail_msg_ne_empty _ _
      · split
        · split
          · next v heq => exact local_retry_ne_empty _ _ v heq
          · exact or_unknown_ne_empty _
        · exact or_unknown_ne_empty _
    | httpErr status msg =>
      dsimp only
      split
      · exact ih _ _ _ _
      · split
        · split
          · exact sse_final_ne_empty _
          · exact ask_fail_msg_ne_empty _ _
        · exact ask_fail_msg_ne_empty _ _
    | reqErr msg =>
      dsimp only
      split
      · exact ih _ _ _ _
      · exact ask_fail_msg_ne_empty _ _

lemma ask_loop_fail_shape (cfg : AskConfig) (server : ServerModel)
    (hp : ∀ k, post_failed (server.post k) = true)
    (hs : stream_failed server.stream = true) :
    ∀ fuel attempt posts sleeps last,
      ∃ a l, (ask_loop cfg server fuel attempt posts sleeps last).value = ask_fail_msg a l := by
  intro fuel
  induction fuel with
  | zero => intro attempt posts sleeps last; exact ⟨attempt, last, rfl⟩
  | succ n ih =>
    intro attempt posts sleeps last
    simp only [ask_loop]
    cases hpo : server.post posts with
    | success ct jsonOk field text =>
      have hcontra := hp posts
      rw [hpo] at hcontra
      exact absurd hcontra (by simp [post_failed])
    | httpErr status msg =>
      dsimp only
      split
      · exact ih _ _ _ _
      · split
        · cases hst : server.stream with
          | ok lines => rw [hst] at hs; exact absurd hs (by simp [stream_failed])
          | fail smsg => exact ⟨attempt, smsg, rfl⟩
        · exact ⟨attempt, msg, rfl⟩
    | reqErr msg =>
      dsimp only
      split
      · exact ih _ _ _ _
      · exact ⟨attempt, msg, rfl⟩

lemma ask_loop_retry_trace (cfg : AskConfig) (server : ServerModel)
    (n : Nat) (ct : Bool) (field : Option String) (text : String)
    (hn : n ≤ cfg.retry_count)
    (hsucc : server.post n = .success ct true field text)
    (hkey : api_key_error (resp_text_of ct field text) = false) :
    ∀ j attempt sleeps last, attempt + j = n →
      (∀ k, attempt ≤ k → k < n → retriable_failure (server.post k) = true) →
      ask_loop cfg server (cfg.retry_count - attempt + 1) attempt attempt sleeps last =
        ⟨or_unknown (resp_text_of ct field text), n + 1, 0,
          sleeps ++ (List.range j).map (fun i => cfg.backoff_base * 2 ^ (attempt + i))⟩ := by
  intro j
  induction j with
  | zero =>
    intro attempt sleeps last h0 _
    have ha : attempt = n := by omega
    subst ha
    rw [ask_loop]
    rw [hsucc]
    simp [hkey]
  | succ m ih =>
    intro attempt sleeps last hm hfail
    have hlt : attempt < n := by omega
    have hrc : attempt < cfg.retry_count := lt_of_lt_of_le hlt hn
    have hfun : (fun i => cfg.backoff_base * 2 ^ (attempt + 1 + i)) =
        ((fun i => cfg.backoff_base * 2 ^ (attempt + i)) ∘ Nat.succ) := by
      funext i
      have h5 : attempt + 1 + i = attempt + (i + 1) := by omega
      simp [Function.comp, h5]
    have hlist : (sleeps ++ [cfg.backoff_base * 2 ^ attempt]) ++
        (List.range m).map (fun i => cfg.backoff_base * 2 ^ (attempt + 1 + i)) =
        sleeps ++ (List.range (m + 1)).map (fun i => cfg.backoff_base * 2 ^ (attempt + i)) := by
      rw [List.append_assoc, List.range_succ_eq_map, List.map_cons, List.map_map]
      simp [hfun]
    have hz := hfail attempt le_rfl hlt
    have hfuel : cfg.retry_count - attempt + 1 = (cfg.retry_count - (attempt + 1) + 1) + 1 := by
      omega
    rw [hfuel, ask_loop]
    cases hpo : server.post attempt with
    | success c j2 f t =>
      rw [hpo] at hz
      simp only [retriable_failure] at hz
      dsimp only
      rw [if_pos hz, if_pos hrc]
      rw [ih (attempt + 1) (sleeps ++ [cfg.backoff_base * 2 ^ attempt]) "JSONDecodeError"
        (by omega) (fun k hk1 hk2 => hfail k (by omega) hk2)]
      exact congrArg _ hlist
    | httpErr status msg =>
      dsimp only
      rw [if_pos hrc]
      rw [ih (attempt + 1) (sleeps ++ [cfg.backoff_base * 2 ^ attempt]) msg
        (by omega) (fun k hk1 hk2 => hfail k (by omega) hk2)]
      exact congrArg _ hlist
    | reqErr msg =>
      dsimp only
      rw [if_pos hrc]
      rw [ih (attempt + 1) (sleeps ++ [cfg.backoff_base * 2 ^ attempt]) msg
        (by omega) (fun k hk1 hk2 => hfail k (by omega) hk2)]
      exact congrArg _ hlist

lemma sse_collect_eq_payloads : ∀ lines, sse_collect lines = sse_payloads_from_spec lines := by
  intro lines
  induction lines with
  | nil => rfl
  | cons o rest ih =>
    cases o with
    | none =>
      simp only [sse_collect, sse_payloads_from_spec, List.filterMap_cons] at ih ⊢
      exact ih
    | some raw =>
      simp only [sse_collect, sse_payloads_from_spec, List.filterMap_cons, id,
        List.map_cons, List.filter_cons] at ih ⊢
      by_cases h1 : py_strip raw = ""
      · simp [h1, show str_starts "" "data:" = false from rfl, ih]
      · by_cases h2 : str_starts (py_strip raw) "data:" = true
        · simp only [h1, if_false, h2, if_true, List.map_cons, List.takeWhile_cons]
          by_cases h3 : py_strip (str_drop (py_strip raw) 5) = "[DONE]"
          · simp [h3, ih]
          · simp [h3, ih]
        · simp only [Bool.not_eq_true] at h2
          simp [h1, h2, ih]

/-! ## Claims about the remote client -/

/-- C5: `RemoteLLMClient.ask` never raises.  In the embedding `ask` is a
total function into `AskResult`, with every raising primitive routed
through an explicit handler, so no fault can escape; this theorem pins
down the result when every POST attempt fails and the streaming fallback
fails too: the value is still one of the two descriptive error strings
(line 118 when the client is unavailable, line 212 otherwise). -/
theorem ask_total_failure_returns_error_string (cfg : AskConfig) (server : ServerModel)
    (hp : ∀ k, post_failed (server.post k) = true)
    (hs : stream_failed server.stream = true) :
    (ask cfg server).value = "Error: Remote server not available." ∨
      ∃ a l, (ask cfg server).value = ask_fail_msg a l := by
  unfold ask
  split
  · exact Or.inr (ask_loop_fail_shape cfg server hp hs _ _ _ _ _)
  · exact Or.inl rfl

/-- C5 witness: a client with the default configuration against a server
whose every POST and whose stream fail returns a descriptive error string. -/
theorem ask_total_failure_returns_error_string_witness :
    (ask cfg_retry2 srv_all_down).value = "Error: Remote server not available." ∨
      ∃ a l, (ask cfg_retry2 srv_all_down).value = ask_fail_msg a l :=
  ask_total_failure_returns_error_string cfg_retry2 srv_all_down (fun _ => rfl) rfl

/-- C6: with retry-count 2 and backoff-base 0.1 against a server that
5xx-fails once and then succeeds, `ask` issues exactly 2 POSTs and sleeps
exactly once, for 0.1 s, before the second; in general, when the first `n`
POSTs fail retriably and POST `n` succeeds plainly (n within the retry
budget), the recorded sleeps are exactly `base * 2 ^ i` for `i < n`, one
before each re-POST. -/
theorem ask_retry_backoff (cfg : AskConfig) (server : ServerModel)
    (n : Nat) (ct : Bool) (field : Option String) (text : String)
    (hav : cfg.available = true)
    (hn : n ≤ cfg.retry_count)
    (hfail : ∀ k, k < n → retriable_failure (server.post k) = true)
    (hsucc : server.post n = .success ct true field text)
    (hkey : api_key_error (resp_text_of ct field text) = false) :
    ask cfg server = ⟨or_unknown (resp_text_of ct field text), n + 1, 0,
      (List.range n).map (fun i => cfg.backoff_base * 2 ^ i)⟩ := by
  unfold ask
  rw [hav]
  have h := ask_loop_retry_trace cfg server n ct field text hn hsucc hkey n 0 [] "None"
    (by omega) (fun k _ hk => hfail k hk)
  rw [Nat.sub_zero] at h
  simp only [if_true]
  rw [h]
  simp

/-- C6 witness: retry-count 2, backoff-base 1/10, one 500 then success:
exactly 2 POSTs, no streaming POST, one sleep of 1/10 s. -/
theorem ask_retry_backoff_witness :
    ask cfg_retry2 srv_fail_once = ⟨"ok", 2, 0, [1/10]⟩ := by
  have h := ask_retry_backoff cfg_retry2 srv_fail_once 1 false none "ok" rfl (by decide)
    (fun k hk => by
      have hk0 : k = 0 := by omega
      subst hk0
      rfl) rfl (by decide)
  rw [h]
  simp only [AskResult.mk.injEq]
  refine ⟨by decide, trivial, trivial, ?_⟩
  rw [show List.range 1 = [0] from rfl]
  simp only [List.map_cons, List.map_nil]
  norm_num [cfg_retry2]

/-- C7 (amended): the streaming fallback consumes `data:` frames until a
literal `[DONE]` payload — `event:` frames and all other lines are
*ignored*, not terminators — and returns the payloads newline-joined in
arrival order (`Unknown` when empty); for frames `chunk1`, `chunk2`,
`[DONE]` the result is the in-order concatenation of the two chunks. -/
theorem sse_reconstruction_matches_spec :
    (∀ lines, sse_final lines = or_unknown (py_strip (py_join (sse_payloads_from_spec lines)))) ∧
      sse_final [some "data: chunk1", some "data: chunk2", some "data: [DONE]"] =
        "chunk1" ++ "\n" ++ "chunk2" := by
  constructor
  · intro lines
    unfold sse_final
    rw [sse_collect_eq_payloads]
  · decide

/-- C7 counterexample: an `event: done` frame does not stop consumption —
a `data:` frame arriving after it is still collected, so the reconstruction
is not "until a literal `[DONE]` payload or an `event: done` frame" as the
claim states. -/
theorem sse_event_done_frame_is_ignored :
    sse_final [some "data: chunk1", some "event: done", some "data: chunk2",
        some "data: [DONE]"] = "chunk1" ++ "\n" ++ "chunk2" ∧
      ("chunk1" ++ "\n" ++ "chunk2" : String) ≠ "chunk1" := by
  constructor
  · decide
  · decide

/-- C8 (amended): construction marks the client available exactly when the
health probe returned a status below 400 (`Response.ok`, i.e. any 2xx *or
3xx*), not only a 2xx; and any `ask` against an unavailable client returns
the explanatory error immediately, with no POST, no streaming POST and no
sleep. -/
theorem client_available_iff_status_lt_400 (p : Option Nat) (cfg : AskConfig)
    (server : ServerModel) (h : cfg.available = false) :
    (client_available p = true ↔ ∃ s, p = some s ∧ s < 400) ∧
      ask cfg server = ⟨"Error: Remote server not available.", 0, 0, []⟩ := by
  constructor
  · cases p with
    | none => simp [client_available]
    | some s => simp [client_available]
  · unfold ask
    rw [h]
    rfl

/-- C8 witness: a 204 probe yields availability, and an unavailable client
answers immediately with the explanatory error and an empty trace. -/
theorem client_available_iff_status_lt_400_witness :
    client_available (some 204) = true ∧
      ask cfg_unavailable srv_all_down = ⟨"Error: Remote server not available.", 0, 0, []⟩ :=
  ⟨(client_available_iff_status_lt_400 (some 204) cfg_unavailable srv_all_down rfl).1.mpr
      ⟨204, rfl, by omega⟩,
    (client_available_iff_status_lt_400 (some 204) cfg_unavailable srv_all_down rfl).2⟩

/-- C8 counterexample: a 304 probe reply marks the client available even
though 304 is not a 2xx status, refuting "available exactly when the probe
returns a 2xx status". -/
theorem client_available_on_304 :
    client_available (some 304) = true ∧ ¬(200 ≤ 304 ∧ 304 < 300) := by
  constructor
  · rfl
  · omega

/-- C10: `ask` never returns the empty string; concretely, an
HTTP-successful reply with empty response text yields the sentinel
`Unknown`, and so does a streaming fallback that reconstructs an empty
answer. -/
theorem ask_never_returns_empty_string :
    (∀ cfg server, (ask cfg server).value ≠ "") ∧
      (ask cfg_retry2 srv_empty_reply).value = "Unknown" ∧
      (ask cfg_retry0 srv_stream_empty).value = "Unknown" := by
  refine ⟨fun cfg server => ?_, by decide, by decide⟩
  unfold ask
  split
  · exact ask_loop_value_ne_empty cfg server _ _ _ _ _
  · decide

lemma emit_feature_eq_build (st : ItemState) (la lb : PyFloat) (u : Bool)
    (h : reconcile_coords st = (some la, some lb, u)) :
    emit_feature st = some ⟨feature_id st.title st.place_str st.idx,
      (if st.title = "" then str_take st.news_item_text 100 ++ "..." else st.title),
      st.place_str,
      (match st.llm_only_geocode_parsed with | some pq => pq.1 | none => la),
      (match st.llm_only_geocode_parsed with | some pq => pq.2 | none => lb),
      (if u then "llm" else if st.lat_wiki.isSome && st.lng_wiki.isSome then "wikidata"
        else if py_truthy_str st.llm_raw then "llm" else "fallback"),
      ((match st.llm_only_geocode_parsed with | some pq => pq.2 | none => lb),
       (match st.llm_only_geocode_parsed with | some pq => pq.1 | none => la))⟩ := by
  simp only [emit_feature, h]
  cases st.llm_only_geocode_parsed <;> rfl

lemma emit_feature_isSome_eq (st : ItemState) :
    (emit_feature st).isSome =
      ((reconcile_coords st).1.isSome && (reconcile_coords st).2.1.isSome) := by
  rcases hrc : reconcile_coords st with ⟨o1, o2, u⟩
  simp only [emit_feature, hrc]
  cases o1 <;> cases o2 <;> simp

lemma reconcile_components_iff (st : ItemState) :
    ((reconcile_coords st).1.isSome && (reconcile_coords st).2.1.isSome) =
      ((st.lat.isSome && st.lng.isSome) || (st.lat_wiki.isSome && st.lng_wiki.isSome)) := by
  obtain ⟨nt, tt, pl, ix, lat, lng, lw, lgw, lo, lraw⟩ := st
  rcases lat with _ | a <;> rcases lng with _ | b <;>
    rcases lw with _ | c <;> rcases lgw with _ | d <;>
    simp [reconcile_coords] <;> split <;> simp

/-- C4 (amended): a GeoFeature is emitted for an EventItem exactly when a
working coordinate pair exists — the story estimate or the knowledge-base
pair complete — i.e. both values are non-None; NaN or infinite values are
*not* filtered out (the guard of line 780 is only an `is not None` test),
so "finite" in the claim must weaken to "present". -/
theorem feature_emitted_iff_coords_present :
    (∀ st : ItemState, (emit_feature st).isSome =
      ((st.lat.isSome && st.lng.isSome) || (st.lat_wiki.isSome && st.lng_wiki.isSome))) ∧
      (emit_feature ⟨"n", "T", "P", 0, none, none, none, none, none, none⟩) = none :=
  ⟨fun st => (emit_feature_isSome_eq st).trans (reconcile_components_iff st), rfl⟩

/-- C4 counterexample: a story whose extracted `lat`/`lng` are NaN (which
`json.loads` produces for a literal `NaN` in the model reply) passes the
emission guard, so a GeoFeature is emitted whose coordinates are not
finite numbers — refuting the claim as stated. -/
theorem feature_emitted_with_nan_coords :
    ∃ f, emit_feature st_nan = some f ∧ pyf_finite f.lat = false ∧ pyf_finite f.lng = false := by
  refine ⟨_, rfl, rfl, rfl⟩

/-- The id of any emitted feature is the stable hash of
`(title, place_str, idx)`. -/
lemma emit_feature_id_eq (st : ItemState) (f : GeoFeature) (h : emit_feature st = some f) :
    f.id = feature_id st.title st.place_str st.idx := by
  rcases hrc : reconcile_coords st with ⟨o1, o2, u⟩
  simp only [emit_feature, hrc] at h
  cases o1 with
  | none => exact absurd h (by simp)
  | some la =>
    cases o2 with
    | none => exact absurd h (by simp)
    | some lb =>
      cases hlo : st.llm_only_geocode_parsed <;> rw [hlo] at h <;>
        (dsimp only at h) <;> (injection h with h2) <;> rw [← h2]

/-- C9: the feature id is a pure, deterministic function of
`(title, place, sequenceIndex)` — `md5(title|place|idx)` — so any two
item states agreeing on that triple (across runs, whatever their other
fields) yield features with identical ids. -/
theorem feature_id_stable (s1 s2 : ItemState)
    (ht : s1.title = s2.title) (hp : s1.place_str = s2.place_str) (hi : s1.idx = s2.idx) :
    ∀ f1 f2, emit_feature s1 = some f1 → emit_feature s2 = some f2 → f1.id = f2.id := by
  intro f1 f2 h1 h2
  rw [emit_feature_id_eq s1 f1 h1, emit_feature_id_eq s2 f2 h2, ht, hp, hi]

/-- C9 witness: two runs over the same `(title, place, index)` triple with
different coordinates and diagnostics produce features with equal ids. -/
theorem feature_id_stable_witness :
    ∃ f1 f2, emit_feature st_run1 = some f1 ∧ emit_feature st_run2 = some f2 ∧ f1.id = f2.id := by
  cases hf1 : emit_feature st_run1 with
  | none => exact absurd hf1 (by decide)
  | some f1 =>
    cases hf2 : emit_feature st_run2 with
    | none => exact absurd hf2 (by decide)
    | some f2 =>
      exact ⟨f1, f2, rfl, rfl, feature_id_stable st_run1 st_run2 rfl rfl rfl f1 f2 hf1 hf2⟩

lemma reconcile_both_present (st : ItemState) (a b c d : ℚ)
    (h1 : st.lat = some (.fin a)) (h2 : st.lng = some (.fin b))
    (h3 : st.lat_wiki = some (.fin c)) (h4 : st.lng_wiki = some (.fin d)) :
    reconcile_coords st = (some (.fin a), some (.fin b),
      decide (|a - c| ≤ 2 ∧ |b - d| ≤ 2)) := by
  simp only [reconcile_coords, h1, h2, h3, h4]
  rw [show (is_close (.fin a) (.fin c) 2 && is_close (.fin b) (.fin d) 2) =
    decide (|a - c| ≤ 2 ∧ |b - d| ≤ 2) from (Bool.decide_and _ _).symm]
  cases hdec : decide (|a - c| ≤ 2 ∧ |b - d| ≤ 2) <;> simp

/-- C1 (amended): when both a story-model estimate and a knowledge-base
coordinate exist, the emitted feature has `decision = llm` exactly when
both latitude and longitude differ by at most 2.0 degrees; otherwise the
decision is the knowledge-base tag (source literal `wikidata`, the value
the specification names `knowledge_base`), but — contrary to the claim —
the knowledge-base coordinate is *not* copied into the final lat/lng: the
final coordinates remain the working model values (the independent
event-text estimate when present, else the story estimate). -/
theorem reconcile_tolerance_rule (st : ItemState) (a b c d : ℚ)
    (h1 : st.lat = some (.fin a)) (h2 : st.lng = some (.fin b))
    (h3 : st.lat_wiki = some (.fin c)) (h4 : st.lng_wiki = some (.fin d)) :
    (|a - c| ≤ 2 ∧ |b - d| ≤ 2 → ∃ f, emit_feature st = some f ∧ f.decision = "llm") ∧
    (¬(|a - c| ≤ 2 ∧ |b - d| ≤ 2) → ∃ f, emit_feature st = some f ∧ f.decision = "wikidata" ∧
      f.lat = (match st.llm_only_geocode_parsed with | some pq => pq.1 | none => .fin a) ∧
      f.lng = (match st.llm_only_geocode_parsed with | some pq => pq.2 | none => .fin b)) := by
  have hrec := reconcile_both_present st a b c d h1 h2 h3 h4
  constructor
  · intro hcl
    rw [decide_eq_true hcl] at hrec
    exact ⟨_, emit_feature_eq_build st _ _ _ hrec, by simp⟩
  · intro hfar
    rw [decide_eq_false hfar] at hrec
    refine ⟨_, emit_feature_eq_build st _ _ _ hrec, ?_, rfl, rfl⟩
    simp [h3, h4]

/-- C1 witness: story `(10, 20)` vs knowledge base `(10.5, 20.5)` is
within tolerance and yields `decision = llm`. -/
theorem reconcile_tolerance_rule_witness :
    ∃ f, emit_feature st_close = some f ∧ f.decision = "llm" :=
  (reconcile_tolerance_rule st_close 10 20 (21/2) (41/2) rfl rfl rfl rfl).1
    (by constructor <;> (rw [abs_le]; constructor <;> norm_num))

/-- C1 counterexample: story `(10, 20)` vs knowledge base `(50, 90)` is
outside tolerance, yet the emitted feature keeps `(10, 20)` as its final
lat/lng — the knowledge-base coordinate is not "used as the feature's
final lat/lng" as the claim states; only the decision tag flips. -/
theorem reconcile_far_keeps_model_coords :
    ∃ f, emit_feature st_far = some f ∧ f.decision = "wikidata" ∧
      f.lat = .fin 10 ∧ f.lng = .fin 20 ∧ ¬(f.lat = .fin 50 ∧ f.lng = .fin 90) := by
  have hrec := reconcile_both_present st_far 10 20 50 90 rfl rfl rfl rfl
  rw [decide_eq_false (by norm_num : ¬(|(10:ℚ) - 50| ≤ 2 ∧ |(20:ℚ) - 90| ≤ 2))] at hrec
  refine ⟨_, emit_feature_eq_build st_far _ _ _ hrec, rfl, rfl, rfl, ?_⟩
  rintro ⟨hc, -⟩
  injection hc with hq
  exact absurd hq (by norm_num)

/-- C2 (amended): when an independent event-text (step-2) estimate was
parsed, it always supplies the emitted feature's final lat/lng (and the
geometry pair, longitude first) — last-writer-wins — while the `decision`
field is computed from the story-vs-knowledge-base reconciliation alone
and is unchanged by the override; so `decision` does *not* in general
record the source that supplied the final coordinate. -/
theorem step2_overrides_final_coords (st : ItemState) (p q : PyFloat)
    (h : st.llm_only_geocode_parsed = some (p, q)) :
    (∀ f, emit_feature st = some f → f.lat = p ∧ f.lng = q ∧ f.geometry = (q, p)) ∧
      (emit_feature st).map GeoFeature.decision =
        (emit_feature {st with llm_only_geocode_parsed := none}).map GeoFeature.decision := by
  obtain ⟨nt, tt, pl, ix, lat, lng, lw, lgw, lo, lraw⟩ := st
  dsimp only at h
  subst h
  constructor
  · intro f hf
    rcases hrc : reconcile_coords ⟨nt, tt, pl, ix, lat, lng, lw, lgw, some (p, q), lraw⟩
      with ⟨o1, o2, u⟩
    simp only [emit_feature, hrc] at hf
    cases o1 with
    | none => exact absurd hf (by simp)
    | some la =>
      cases o2 with
      | none => exact absurd hf (by simp)
      | some lb =>
        dsimp only at hf
        injection hf with h2
        rw [← h2]
        exact ⟨rfl, rfl, rfl⟩
  · rcases hrc : reconcile_coords ⟨nt, tt, pl, ix, lat, lng, lw, lgw, none, lraw⟩
      with ⟨o1, o2, u⟩
    have hrc2 : reconcile_coords ⟨nt, tt, pl, ix, lat, lng, lw, lgw, some (p, q), lraw⟩ =
        (o1, o2, u) := hrc
    dsimp only
    simp only [emit_feature, hrc, hrc2]
    cases o1 <;> cases o2 <;> rfl

/-- C2 witness: with step-2 estimate `(0, 0)` present, the emitted
feature carries `(0, 0)` and the decision equals that of the same state
without the step-2 estimate. -/
theorem step2_overrides_final_coords_witness :
    (∃ f, emit_feature st_step2 = some f ∧ f.lat = .fin 0 ∧ f.lng = .fin 0) ∧
      (emit_feature st_step2).map GeoFeature.decision =
        (emit_feature st_step2_none).map GeoFeature.decision := by
  have h := step2_overrides_final_coords st_step2 (.fin 0) (.fin 0) rfl
  constructor
  · have hrec := reconcile_both_present st_step2 10 20 50 90 rfl rfl rfl rfl
    rw [decide_eq_false (by norm_num : ¬(|(10:ℚ) - 50| ≤ 2 ∧ |(20:ℚ) - 90| ≤ 2))] at hrec
    have hb := emit_feature_eq_build st_step2 _ _ _ hrec
    exact ⟨_, hb, (h.1 _ hb).1, (h.1 _ hb).2.1⟩
  · exact h.2

/-- C2 counterexample: story `(10, 20)`, knowledge base `(50, 90)`,
step-2 estimate `(0, 0)`: the feature's final coordinates are `(0, 0)`,
supplied by the model, yet `decision` is the knowledge-base tag
`wikidata` — the decision does not name the source of the final
coordinate, refuting the claim. -/
theorem step2_decision_names_wrong_source :
    ∃ f, emit_feature st_step2 = some f ∧ f.decision = "wikidata" ∧
      f.lat = .fin 0 ∧ f.lng = .fin 0 ∧ ¬(f.lat = .fin 50 ∧ f.lng = .fin 90) := by
  have hrec := reconcile_both_present st_step2 10 20 50 90 rfl rfl rfl rfl
  rw [decide_eq_false (by norm_num : ¬(|(10:ℚ) - 50| ≤ 2 ∧ |(20:ℚ) - 90| ≤ 2))] at hrec
  refine ⟨_, emit_feature_eq_build st_step2 _ _ _ hrec, rfl, rfl, rfl, ?_⟩
  rintro ⟨hc, -⟩
  injection hc with hq
  exact absurd hq (by norm_num)

/-- C3: on the DMS reply `40°26'46"N 79°58'56"W` (the specification's own
DMS test vector) parser (a) succeeds with the correct conversion
`(40.44611…, -79.98222…) = (72803/1800, -17996/225)`, but the cascade
still runs the generic two-float scan (b) — its `if not parsed_ok` guard
is missing in the source, unlike for (c) and (d) — which overwrites the
result with `(40, 26)`.  Application does not stop at the first
successful parser, contradicting the claim and the specification's DMS
test property: a code bug. -/
theorem two_float_scan_overwrites_dms_result :
    dms_parse_step dms_reply =
      (some ((72803 : ℚ)/1800, -((17996 : ℚ)/225)), true) ∧
    geo_cascade dms_reply (fun _ => none) = some (40, 26) ∧
    ¬(((40 : ℚ), (26 : ℚ)) = ((72803 : ℚ)/1800, -((17996 : ℚ)/225))) := by
  have hfind : dms_findall_str dms_reply =
      [(['4', '0'], ['2', '6'], (['4', '6'], []), 'N'),
       (['7', '9'], ['5', '8'], (['5', '6'], []), 'W')] := by decide
  have h2f : two_float_search_str dms_reply =
      some ((false, ['4', '0'], []), (false, ['2', '6'], [])) := by decide
  refine ⟨?_, ?_, by norm_num⟩
  · unfold dms_parse_step
    rw [if_pos (by decide), hfind]
    have hv1 : dms_to_decimal (['4', '0'], ['2', '6'], (['4', '6'], []), 'N') =
        (72803 : ℚ)/1800 := by
      simp only [dms_to_decimal]
      rw [if_neg (by decide)]
      rw [show digits_to_nat ['4', '0'] = 40 from rfl,
        show digits_to_nat ['2', '6'] = 26 from rfl,
        show digits_to_nat ['4', '6'] = 46 from rfl,
        show digits_to_nat ([] : List Char) = 0 from rfl]
      norm_num
    have hv2 : dms_to_decimal (['7', '9'], ['5', '8'], (['5', '6'], []), 'W') =
        -((17996 : ℚ)/225) := by
      simp only [dms_to_decimal]
      rw [if_pos (by decide)]
      rw [show digits_to_nat ['7', '9'] = 79 from rfl,
        show digits_to_nat ['5', '8'] = 58 from rfl,
        show digits_to_nat ['5', '6'] = 56 from rfl,
        show digits_to_nat ([] : List Char) = 0 from rfl]
      rw [abs_of_pos (by norm_num)]
      norm_num
    dsimp only
    rw [hv1, hv2]
  · unfold geo_cascade
    rw [h2f]
    dsimp only
    rw [show py_float_raw (false, ['4', '0'], []) = (40 : ℚ) by
        simp only [py_float_raw]
        rw [show digits_to_nat ['4', '0'] = 40 from rfl,
          show digits_to_nat ([] : List Char) = 0 from rfl]
        norm_num,
      show py_float_raw (false, ['2', '6'], []) = (26 : ℚ) by
        simp only [py_float_raw]
        rw [show digits_to_nat ['2', '6'] = 26 from rfl,
          show digits_to_nat ([] : List Char) = 0 from rfl]
        norm_num]
    simp
